import Mathlib

/-!
Shallow embedding of the ElectroMart customer console chat surface
(`ChatInterface`, `ChatMessage`, API client) and proofs of the
specification claims about its state transitions.

The `useState` cells of the React component are collected into a
`ChatState` record; each event handler becomes a pure function from the
old state (plus the data the browser/network would supply: the current
timestamp, the transport outcome, the freshly generated uuid, the
speech-capture start outcome) to the new state together with the list of
API calls it issued.  Each `await api...` call is modelled by passing
its outcome in as an `Except` value; the focus side effect
`inputRef.current?.focus()` is an `inputFocused` flag.
-/

/-- `MessageRole` from types: the union of user, assistant and system. -/
inductive MessageRole where
  | user
  | assistant
  | system
deriving DecidableEq, Repr

/-- `Message` from types.  `agent_type` is kept as a raw string key
(the JavaScript runtime value), `none` for `undefined`. -/
structure Message where
  role : MessageRole
  content : String
  timestamp : String
  agent_type : Option String
deriving DecidableEq, Repr

/-- `AgentInfo` from types.  The `confidence` float is used only for
console logging and is not modelled. -/
structure AgentInfo where
  agent_type : String
deriving DecidableEq, Repr

/-- `ChatResponse` from types: the backend reply to `POST /chat`.
`sentiment` and the float fields are not used by any handler logic and
are omitted; `suggestions` is optional (`undefined` becomes `none`). -/
structure ChatResponse where
  response : String
  session_id : String
  agent_info : AgentInfo
  response_time_ms : Nat
  timestamp : String
  suggestions : Option (List String)
deriving DecidableEq, Repr

/-- `ChatRequest` from types, as built by `handleSendMessage`
(`session_id` is always supplied there). -/
structure ChatRequest where
  message : String
  session_id : String
deriving DecidableEq, Repr

/-- The `useState` cells of `ChatInterface`, plus `inputFocused`
modelling `inputRef.current?.focus()` and `recognition` modelling
whether a speech-recognition instance was created. -/
structure ChatState where
  messages : List Message
  inputValue : String
  isLoading : Bool
  sessionId : String
  error : Option String
  suggestions : List String
  isRecording : Bool
  recognition : Bool
  inputFocused : Bool
deriving DecidableEq, Repr

/-- Outbound API calls a handler can issue (`api.sendMessage`,
`api.clearConversation`). -/
inductive ApiCall where
  | sendMessage (req : ChatRequest)
  | clearConversation (sessionId : String)
deriving DecidableEq, Repr

/-- The optimistic user message object built in `handleSendMessage`
(role user, trimmed content, `new Date().toISOString()` passed in
as `now`). -/
def mkUserMsg (now text : String) : Message :=
  { role := .user, content := text, timestamp := now, agent_type := none }

/-- The assistant message object built from a successful `ChatResponse`. -/
def mkAssistantMsg (resp : ChatResponse) : Message :=
  { role := .assistant
    content := resp.response
    timestamp := resp.timestamp
    agent_type := some resp.agent_info.agent_type }

/-- The error message shown on transport failure. -/
def sendFailMsg : String := "Failed to send message. Please try again."

/-- Strip leading whitespace characters from a character list. -/
def dropLeadingWs : List Char → List Char
  | [] => []
  | c :: cs => if c.isWhitespace then dropLeadingWs cs else c :: cs

/-- JavaScript `String.prototype.trim`: strip whitespace from both ends. -/
def jsTrim (s : String) : String :=
  String.mk ((dropLeadingWs ((dropLeadingWs s.toList).reverse)).reverse)

/-- The request `handleSendMessage` passes to `api.sendMessage`. -/
def sendRequest (s : ChatState) : ChatRequest :=
  { message := jsTrim s.inputValue, session_id := s.sessionId }

/-- The state at the moment the transport call is issued: input cleared,
error cleared, user message optimistically appended, loading set
(lines 417–433 of the handler). -/
def sendPreState (now : String) (s : ChatState) : ChatState :=
  { s with
    inputValue := ""
    error := none
    messages := s.messages ++ [mkUserMsg now (jsTrim s.inputValue)]
    isLoading := true }

/-- `handleSendMessage`.  The guard rejects blank (whitespace-only)
input or an in-flight send; otherwise the optimistic update is applied,
the transport is invoked, and the success branch appends the assistant
message and (when provided) replaces the suggestions, while the catch
branch sets the error and drops the trailing optimistic message
(`prev.slice(0, -1)`); the finally block clears loading and refocuses
the input on both branches. -/
def handleSendMessage (now : String)
    (transport : ChatRequest → Except String ChatResponse)
    (s : ChatState) : ChatState × List ApiCall :=
  if jsTrim s.inputValue = "" || s.isLoading then (s, [])
  else
    let req := sendRequest s
    let pre := sendPreState now s
    match transport req with
    | .ok resp =>
        ({ pre with
            messages := pre.messages ++ [mkAssistantMsg resp]
            suggestions :=
              match resp.suggestions with
              | some l => l
              | none => pre.suggestions
            isLoading := false
            inputFocused := true },
         [.sendMessage req])
    | .error _ =>
        ({ pre with
            error := some sendFailMsg
            messages := pre.messages.dropLast
            isLoading := false
            inputFocused := true },
         [.sendMessage req])

/-- `handleSuggestionClick`: writes the suggestion into the input and
focuses it; issues no API call. -/
def handleSuggestionClick (suggestion : String) (s : ChatState) :
    ChatState × List ApiCall :=
  ({ s with inputValue := suggestion, inputFocused := true }, [])

/-- `handleClearChat`.  Guarded on a truthy (non-empty) `sessionId`; the
`await api.clearConversation` outcome is passed in.  The local resets and
the fresh session id sit after the `await` inside the `try`, so they run
only when the call succeeds; the `catch` only logs. -/
def handleClearChat (freshId : String) (clearResult : Except String Unit)
    (s : ChatState) : ChatState × List ApiCall :=
  if s.sessionId = "" then (s, [])
  else
    match clearResult with
    | .ok _ =>
        ({ s with
            messages := []
            suggestions := []
            error := none
            sessionId := freshId },
         [.clearConversation s.sessionId])
    | .error _ => (s, [.clearConversation s.sessionId])

/-- The error message shown when speech recognition is unavailable. -/
def voiceUnsupportedMsg : String :=
  "Voice recognition is not supported in your browser. Please use Chrome, Edge, or Safari."

/-- The error message shown when `recognition.start()` throws. -/
def voiceStartFailMsg : String :=
  "Failed to start voice recognition. Please try again."

/-- What `handleVoiceInput` did to the capture device. -/
inductive VoiceAction where
  | none
  | stop
  | start
deriving DecidableEq, Repr

/-- `handleVoiceInput`.  With no recognition instance it only sets the
feature-unavailable error.  Otherwise: recording → stop and clear the
flag; not recording → clear the error, set the flag and attempt
`recognition.start()`, whose outcome (`startResult`) may throw, in which
case the flag is cleared again and an error is set. -/
def handleVoiceInput (startResult : Except String Unit) (s : ChatState) :
    ChatState × VoiceAction :=
  if !s.recognition then
    ({ s with error := some voiceUnsupportedMsg }, .none)
  else if s.isRecording then
    ({ s with isRecording := false }, .stop)
  else
    match startResult with
    | .ok _ =>
        ({ s with error := none, isRecording := true }, .start)
    | .error _ =>
        ({ s with
            isRecording := false
            error := some voiceStartFailMsg }, .start)

/-- Icon/class/label triple from `getAgentStyle` in `ChatMessage`. -/
structure AgentStyle where
  icon : String
  className : String
  label : String
deriving DecidableEq, Repr

/-- The `customer_service` entry of the lookup, also the fallback. -/
def customerServiceStyle : AgentStyle :=
  { icon := "💬", className := "customerService", label := "Customer Service" }

/-- The `agentStyles` object: property lookup by agent-type key,
`none` for an absent property. -/
def agentStyleLookup (key : String) : Option AgentStyle :=
  match key with
  | "sales" => some { icon := "🛒", className := "sales", label := "Sales" }
  | "marketing" => some { icon := "🎯", className := "marketing", label := "Marketing" }
  | "technical_support" =>
      some { icon := "🔧", className := "technicalSupport", label := "Tech Support" }
  | "order_logistics" =>
      some { icon := "📦", className := "orderLogistics", label := "Orders" }
  | "customer_service" => some customerServiceStyle
  | "orchestrator" => some { icon := "🎭", className := "orchestrator", label := "System" }
  | _ => none

/-- `getAgentStyle`: `agentStyles[agentType] || agentStyles.customer_service`
(an `undefined` agent type or a miss both fall through to the default). -/
def getAgentStyle (agentType : Option String) : AgentStyle :=
  match agentType with
  | some k => (agentStyleLookup k).getD customerServiceStyle
  | none => customerServiceStyle

/-- The six agent-type keys of the `AgentType` union. -/
def knownAgentTypes : List String :=
  ["orchestrator", "sales", "marketing", "technical_support",
   "order_logistics", "customer_service"]

/-! Sample data used by the witness and counterexample theorems. -/

/-- A concrete backend response used by witnesses. -/
def sampleResp : ChatResponse :=
  { response := "Your order ships tomorrow."
    session_id := "sess-1"
    agent_info := { agent_type := "order_logistics" }
    response_time_ms := 120
    timestamp := "2024-01-01T00:00:01Z"
    suggestions := some ["Track another order"] }

/-- A concrete backend response carrying no suggestions field. -/
def sampleRespNoSugg : ChatResponse :=
  { sampleResp with suggestions := none }

/-- A concrete idle state with non-blank input, used by witnesses. -/
def sampleState : ChatState :=
  { messages := []
    inputValue := "Track my order #12345"
    isLoading := false
    sessionId := "sess-1"
    error := none
    suggestions := ["old suggestion"]
    isRecording := false
    recognition := true
    inputFocused := false }

/-- A concrete state with history, used for clear-chat theorems. -/
def clearSampleState : ChatState :=
  { messages := [{ role := .user, content := "hi", timestamp := "t0", agent_type := none }]
    inputValue := ""
    isLoading := false
    sessionId := "sess-old"
    error := some "boom"
    suggestions := ["a"]
    isRecording := false
    recognition := false
    inputFocused := false }

/-- C1: from an idle state with non-blank input, a send whose transport
call succeeds appends exactly one user message (role user, content the
trimmed input) followed by exactly one assistant message (role
assistant, content the response text) and nothing else. -/
theorem sendMessage_success_appends (now : String) (resp : ChatResponse)
    (s : ChatState) (hL : s.isLoading = false) (hT : jsTrim s.inputValue ≠ "") :
    (handleSendMessage now (fun _ => .ok resp) s).1.messages =
      s.messages ++
        [{ role := .user, content := jsTrim s.inputValue, timestamp := now,
           agent_type := none },
         { role := .assistant, content := resp.response,
           timestamp := resp.timestamp,
           agent_type := some resp.agent_info.agent_type }] := by
  simp [handleSendMessage, hT, hL, sendPreState, mkUserMsg, mkAssistantMsg]

/-- Witness for C1 at a concrete state and response. -/
theorem sendMessage_success_appends_witness :
    sampleState.isLoading = false ∧ jsTrim sampleState.inputValue ≠ "" ∧
    (handleSendMessage "t1" (fun _ => .ok sampleResp) sampleState).1.messages =
      sampleState.messages ++
        [{ role := .user, content := jsTrim sampleState.inputValue,
           timestamp := "t1", agent_type := none },
         { role := .assistant, content := sampleResp.response,
           timestamp := sampleResp.timestamp,
           agent_type := some sampleResp.agent_info.agent_type }] :=
  ⟨rfl, by decide,
    sendMessage_success_appends "t1" sampleResp sampleState rfl (by decide)⟩

/-- C2: a send with blank (empty or whitespace-only) input, or issued
while a send is already in flight, leaves the whole state unchanged and
issues no API call. -/
theorem sendMessage_blank_or_loading_noop (now : String)
    (transport : ChatRequest → Except String ChatResponse) (s : ChatState)
    (h : jsTrim s.inputValue = "" ∨ s.isLoading = true) :
    handleSendMessage now transport s = (s, []) := by
  rcases h with h | h <;> simp [handleSendMessage, h]

/-- Witness for C2 at a whitespace-only input. -/
theorem sendMessage_blank_or_loading_noop_witness :
    handleSendMessage "t1" (fun _ => .ok sampleResp)
      { sampleState with inputValue := "   " } =
      ({ sampleState with inputValue := "   " }, []) :=
  sendMessage_blank_or_loading_noop "t1" (fun _ => .ok sampleResp)
    { sampleState with inputValue := "   " } (Or.inl (by decide))

/-- C3: from an idle state with non-blank input, a send whose transport
call fails leaves the message list exactly as it was before the send
(the rollback removes only the optimistic user message) and sets the
error to the failure message. -/
theorem sendMessage_failure_rollback (now err : String) (s : ChatState)
    (hL : s.isLoading = false) (hT : jsTrim s.inputValue ≠ "") :
    (handleSendMessage now (fun _ => .error err) s).1.messages = s.messages ∧
    (handleSendMessage now (fun _ => .error err) s).1.error = some sendFailMsg := by
  constructor <;>
    simp [handleSendMessage, hT, hL, sendPreState, List.dropLast_concat]

/-- Witness for C3 at a concrete state. -/
theorem sendMessage_failure_rollback_witness :
    (handleSendMessage "t1" (fun _ => .error "network") sampleState).1.messages =
      sampleState.messages ∧
    (handleSendMessage "t1" (fun _ => .error "network") sampleState).1.error =
      some sendFailMsg :=
  sendMessage_failure_rollback "t1" "network" sampleState rfl (by decide)

/-- C5: every send that passes the guard finishes with the loading flag
cleared and the input focused, whatever the transport outcome. -/
theorem sendMessage_completion (now : String)
    (transport : ChatRequest → Except String ChatResponse) (s : ChatState)
    (hL : s.isLoading = false) (hT : jsTrim s.inputValue ≠ "") :
    (handleSendMessage now transport s).1.isLoading = false ∧
    (handleSendMessage now transport s).1.inputFocused = true := by
  unfold handleSendMessage
  rw [if_neg (by simp [hT, hL])]
  cases h : transport (sendRequest s) <;> simp [h]

/-- Witness for C5 at a concrete state with a failing transport. -/
theorem sendMessage_completion_witness :
    (handleSendMessage "t1" (fun _ => .error "network") sampleState).1.isLoading
        = false ∧
    (handleSendMessage "t1" (fun _ => .error "network") sampleState).1.inputFocused
        = true :=
  sendMessage_completion "t1" (fun _ => .error "network") sampleState rfl
    (by decide)

/-- C9: on a successful send, the suggestions are left unchanged when
the response carries no suggestions field, and are replaced by the
provided list otherwise. -/
theorem sendMessage_suggestions_update (now : String) (resp : ChatResponse)
    (s : ChatState) (hL : s.isLoading = false) (hT : jsTrim s.inputValue ≠ "") :
    (resp.suggestions = none →
      (handleSendMessage now (fun _ => .ok resp) s).1.suggestions =
        s.suggestions) ∧
    (∀ l, resp.suggestions = some l →
      (handleSendMessage now (fun _ => .ok resp) s).1.suggestions = l) := by
  constructor
  · intro hn
    simp [handleSendMessage, hT, hL, sendPreState, hn]
  · intro l hl
    simp [handleSendMessage, hT, hL, sendPreState, hl]

/-- Witness for C9 at a response with no suggestions field. -/
theorem sendMessage_suggestions_update_witness :
    (handleSendMessage "t1" (fun _ => .ok sampleRespNoSugg)
        sampleState).1.suggestions = sampleState.suggestions :=
  (sendMessage_suggestions_update "t1" sampleRespNoSugg sampleState rfl
      (by decide)).1 rfl

/-- C10: on a guard-passing send, the state from which the transport
call is issued already has the input field cleared and the error
cleared, and after a transport failure the input field is still empty
(the rolled-back text is not restored). -/
theorem sendMessage_input_cleared (now err : String) (s : ChatState)
    (hL : s.isLoading = false) (hT : jsTrim s.inputValue ≠ "") :
    (sendPreState now s).inputValue = "" ∧
    (sendPreState now s).error = none ∧
    (handleSendMessage now (fun _ => .error err) s).1.inputValue = "" := by
  refine ⟨rfl, rfl, ?_⟩
  simp [handleSendMessage, hT, hL, sendPreState]

/-- Witness for C10 at a concrete state. -/
theorem sendMessage_input_cleared_witness :
    (sendPreState "t1" sampleState).inputValue = "" ∧
    (sendPreState "t1" sampleState).error = none ∧
    (handleSendMessage "t1" (fun _ => .error "network")
        sampleState).1.inputValue = "" :=
  sendMessage_input_cleared "t1" "network" sampleState rfl (by decide)

/-- C6: clicking a suggestion writes exactly its text into the input
field, issues no API call, and leaves the message list, suggestion list,
loading flag, error and session identifier unchanged. -/
theorem suggestionClick_sets_input_only (t : String) (s : ChatState) :
    (handleSuggestionClick t s).1.inputValue = t ∧
    (handleSuggestionClick t s).1.messages = s.messages ∧
    (handleSuggestionClick t s).1.suggestions = s.suggestions ∧
    (handleSuggestionClick t s).1.isLoading = s.isLoading ∧
    (handleSuggestionClick t s).1.error = s.error ∧
    (handleSuggestionClick t s).1.sessionId = s.sessionId ∧
    (handleSuggestionClick t s).2 = [] := by
  simp [handleSuggestionClick]

/-- Counterexample to C4 as stated: with a defined session identifier
but a failing clear call, nothing is reset — the message list stays
non-empty and the session identifier is unchanged (the resets sit after
the `await` inside the `try`). -/
theorem clearChat_failure_counterexample :
    clearSampleState.sessionId ≠ "" ∧
    (handleClearChat "sess-new" (Except.error "network")
        clearSampleState).1.messages ≠ [] ∧
    (handleClearChat "sess-new" (Except.error "network")
        clearSampleState).1.sessionId = clearSampleState.sessionId := by
  refine ⟨by decide, by decide, rfl⟩

/-- C4 amended: with a defined (non-empty) session identifier,
clearConversation always issues the clear call for the current session;
when the call succeeds it resets messages, suggestions and error and
installs the fresh session identifier (different from the old one);
when the call fails the failure is only logged and the local state is
left entirely unchanged. -/
theorem clearChat_spec (freshId : String) (cr : Except String Unit)
    (s : ChatState) (hs : s.sessionId ≠ "") (hf : freshId ≠ s.sessionId) :
    (handleClearChat freshId cr s).2 =
      [ApiCall.clearConversation s.sessionId] ∧
    (cr = Except.ok () →
      (handleClearChat freshId cr s).1 =
        { s with messages := [], suggestions := [], error := none,
                 sessionId := freshId } ∧
      (handleClearChat freshId cr s).1.sessionId ≠ s.sessionId) ∧
    (∀ e, cr = Except.error e → (handleClearChat freshId cr s).1 = s) := by
  refine ⟨?_, ?_, ?_⟩
  · cases cr <;> simp [handleClearChat, hs]
  · intro h
    subst h
    exact ⟨by simp [handleClearChat, hs], by simp [handleClearChat, hs, hf]⟩
  · intro e h
    subst h
    simp [handleClearChat, hs]

/-- Witness for the amended C4: a successful clear at a concrete state
resets everything and installs the fresh identifier. -/
theorem clearChat_spec_witness :
    (handleClearChat "sess-new" (Except.ok ()) clearSampleState).1 =
      { clearSampleState with messages := [], suggestions := [],
                              error := none, sessionId := "sess-new" } :=
  ((clearChat_spec "sess-new" (Except.ok ()) clearSampleState (by decide)
      (by decide)).2.1 rfl).1

/-- Counterexample to C7 as stated: with a capability available and
recording off, a toggle whose `recognition.start()` throws leaves the
recording flag off — the flag is not toggled. -/
theorem voiceInput_start_failure_counterexample :
    sampleState.recognition = true ∧ sampleState.isRecording = false ∧
    (handleVoiceInput (Except.error "not-allowed")
        sampleState).1.isRecording = false := by
  refine ⟨rfl, rfl, rfl⟩

/-- C7 amended: with no capability, toggleVoiceCapture only sets the
feature-unavailable error (capture is not started, the recording flag is
untouched); with a capability: recording → capture is stopped and the
flag cleared; not recording → the error is cleared, the flag set and
capture started, except that when starting throws the flag is cleared
again and a start-failure error is set. -/
theorem voiceInput_spec (startResult : Except String Unit) (s : ChatState) :
    (s.recognition = false →
      handleVoiceInput startResult s =
        ({ s with error := some voiceUnsupportedMsg }, .none)) ∧
    (s.recognition = true → s.isRecording = true →
      handleVoiceInput startResult s =
        ({ s with isRecording := false }, .stop)) ∧
    (s.recognition = true → s.isRecording = false →
      (startResult = Except.ok () →
        handleVoiceInput startResult s =
          ({ s with error := none, isRecording := true }, .start)) ∧
      (∀ e, startResult = Except.error e →
        handleVoiceInput startResult s =
          ({ s with isRecording := false,
                    error := some voiceStartFailMsg }, .start))) := by
  refine ⟨?_, ?_, ?_⟩
  · intro h
    simp [handleVoiceInput, h]
  · intro h hr
    simp [handleVoiceInput, h, hr]
  · intro h hr
    constructor
    · intro hok
      subst hok
      simp [handleVoiceInput, h, hr]
    · intro e he
      subst he
      simp [handleVoiceInput, h, hr]

/-- Witness for the amended C7: a failed capture start at a concrete
state clears the flag and sets the start-failure error. -/
theorem voiceInput_spec_witness :
    handleVoiceInput (Except.error "not-allowed") sampleState =
      ({ sampleState with isRecording := false,
                          error := some voiceStartFailMsg }, .start) :=
  ((voiceInput_spec (Except.error "not-allowed") sampleState).2.2 rfl rfl).2
    "not-allowed" rfl

/-- An agent-type key outside the six known ones misses the lookup. -/
theorem agentStyleLookup_unknown (k : String) (h : k ∉ knownAgentTypes) :
    agentStyleLookup k = none := by
  unfold agentStyleLookup
  split <;> simp_all [knownAgentTypes]

/-- C8: the agent styling is a pure lookup on the agent type — any
absent or unrecognized agent type falls back to the customer-service
styling, and each of the six known agent types maps to its own
icon/label pair. -/
theorem getAgentStyle_lookup (a : Option String)
    (h : ∀ k, a = some k → k ∉ knownAgentTypes) :
    getAgentStyle a = customerServiceStyle ∧
    getAgentStyle (some "sales") =
      { icon := "🛒", className := "sales", label := "Sales" } ∧
    getAgentStyle (some "marketing") =
      { icon := "🎯", className := "marketing", label := "Marketing" } ∧
    getAgentStyle (some "technical_support") =
      { icon := "🔧", className := "technicalSupport", label := "Tech Support" } ∧
    getAgentStyle (some "order_logistics") =
      { icon := "📦", className := "orderLogistics", label := "Orders" } ∧
    getAgentStyle (some "customer_service") = customerServiceStyle ∧
    getAgentStyle (some "orchestrator") =
      { icon := "🎭", className := "orchestrator", label := "System" } := by
  refine ⟨?_, rfl, rfl, rfl, rfl, rfl, rfl⟩
  cases a with
  | none => rfl
  | some k =>
      simp [getAgentStyle, agentStyleLookup_unknown k (h k rfl)]

/-- Witness for C8: an unrecognized agent type gets the
customer-service styling. -/
theorem getAgentStyle_lookup_witness :
    getAgentStyle (some "robot") = customerServiceStyle :=
  (getAgentStyle_lookup (some "robot")
      (by intro k hk; injection hk with h; subst h; decide)).1
